import Mathlib

/-!
# Token service (`src/main.go`)

A shallow embedding of the token-issuing HTTP service: the configuration
loader (`getEnv`, `loadEnv`), the credential builder and issuer
(`generateAccessToken`) and the request handler (`generateTokenHandler`).

Three collaborators live outside the repository and are handled as follows.

* The process environment is an association list; `Getenv` is `os.Getenv`.
* The JSON decoder and the JWT signer are parameters of the handler, of
  their Go types. Two instances model the libraries the program is built
  with: `streamDecoder`, the streaming `Decoder.Decode`, which reads the
  first JSON value of the body, and `ToJWT`, which refuses an empty key or
  secret and stamps its dates in whole seconds. The scanner and the
  serialisation inside them stay parameters.
* The signing library's builder (`NewAccessToken`, `AddGrant`, `SetIdentity`,
  `SetValidFor`, `SetName`) is the record of the values handed to it.

Effects of the handler (the response written, the calls made to the issuer,
the lines logged) are returned explicitly in an `Outcome`.
-/

namespace TokenService

/-! ## Data model (lines 16-37) -/

/-- Go `TokenRequest` (lines 16-20). -/
structure TokenRequest where
  RoomName : String
  Identity : String
  Name : String
deriving DecidableEq, Repr

/-- Go `TokenResponse` (lines 22-27). -/
structure TokenResponse where
  Token : String
  URL : String
  RoomName : String
  Identity : String
deriving DecidableEq, Repr

/-- Go `ErrorResponse` (lines 29-31). -/
structure ErrorResponse where
  Error : String
deriving DecidableEq, Repr

/-- The package-level variables of lines 33-37, as one record. -/
structure Config where
  livekitURL : String
  livekitAPIKey : String
  livekitAPISecret : String
deriving DecidableEq, Repr

/-! ## Configuration loader (lines 76-88) -/

/-- The process environment: the variables that are set, with their values.
A variable may be set to the empty string. -/
abbrev Env := List (String × String)

/-- Go `os.Getenv`: the value of the variable, which is empty when the
variable is not present. -/
def Getenv (env : Env) (key : String) : String :=
  match env.lookup key with
  | some value => value
  | none => ""

/-- Go `getEnv` (lines 82-88). -/
def getEnv (env : Env) (key defaultValue : String) : String :=
  let value := Getenv env key
  if value = "" then
    defaultValue
  else
    value

/-- Go `loadEnv` (lines 76-80): the values assigned to the three globals. -/
def loadEnv (env : Env) : Config :=
  { livekitURL := getEnv env "LIVEKIT_URL" "ws://localhost:7880"
    livekitAPIKey := getEnv env "LIVEKIT_API_KEY" "devkey"
    livekitAPISecret := getEnv env "LIVEKIT_API_SECRET" "APIsecretkey123" }

/-! ## Time (Go `time`) -/

/-- Go `time.Duration`: a count of nanoseconds. -/
abbrev Duration := Int

/-- An instant, as nanoseconds since the Unix epoch. -/
abbrev Instant := Int

def Nanosecond : Duration := 1
def Microsecond : Duration := 1000 * Nanosecond
def Millisecond : Duration := 1000 * Microsecond
def Second : Duration := 1000 * Millisecond
def Minute : Duration := 60 * Second
def Hour : Duration := 60 * Minute

/-! ## The signing library's credential builder -/

/-- The signing library's `VideoGrant`, declared outside `src/`: the four
fields that the composite literal of lines 127-132 names, and the library's
other permission fields. Go leaves a field the literal does not name at its
zero value, which is what the defaults are. -/
structure VideoGrant where
  RoomCreate : Bool := false
  RoomList : Bool := false
  RoomRecord : Bool := false
  RoomAdmin : Bool := false
  RoomJoin : Bool := false
  Room : String := ""
  CanPublish : Option Bool := none
  CanSubscribe : Option Bool := none
  CanPublishData : Option Bool := none
  CanPublishSources : List String := []
  CanUpdateOwnMetadata : Option Bool := none
  IngressAdmin : Bool := false
  Hidden : Bool := false
  Recorder : Bool := false
  Agent : Bool := false
deriving DecidableEq, Repr

/-- The library's `AccessToken` under construction: the key pair it was
created with and what the setters have been given so far. `name` and `video`
are `none` until `SetName` and `AddGrant` are called. -/
structure AccessToken where
  apiKey : String
  secret : String
  identity : String := ""
  name : Option String := none
  video : Option VideoGrant := none
  validFor : Duration := 0
deriving DecidableEq, Repr

/-- Library `auth.NewAccessToken`. -/
def NewAccessToken (key secret : String) : AccessToken :=
  { apiKey := key, secret := secret }

/-- Library `AddGrant`. -/
def AccessToken.AddGrant (t : AccessToken) (grant : VideoGrant) : AccessToken :=
  { t with video := some grant }

/-- Library `SetIdentity`. -/
def AccessToken.SetIdentity (t : AccessToken) (identity : String) : AccessToken :=
  { t with identity := identity }

/-- Library `SetValidFor`. -/
def AccessToken.SetValidFor (t : AccessToken) (duration : Duration) : AccessToken :=
  { t with validFor := duration }

/-- Library `SetName`. -/
def AccessToken.SetName (t : AccessToken) (name : String) : AccessToken :=
  { t with name := some name }

/-- Modelled from the spec: the expiry of an issued credential is its issue
time plus its validity ("expiry = issueTime + 24h"); the addition itself is
done inside the signing library's `ToJWT`, which is not under `src/`. -/
def AccessToken.expiry (t : AccessToken) (issued : Instant) : Instant :=
  issued + t.validFor

/-- Library `ToJWT`, a parameter: from the clock reading at the call and the
credential, either the signed string or an error (its message). -/
abbrev Signer := Instant → AccessToken → Except String String

/-! ## Token issuer (lines 121-143) -/

/-- Lines 122-140 of `generateAccessToken`: the credential on which `ToJWT`
is then called. -/
def credential (cfg : Config) (roomName identity name : String) : AccessToken :=
  let tk := NewAccessToken cfg.livekitAPIKey cfg.livekitAPISecret
  let canPublish := true
  let canSubscribe := true
  let grant : VideoGrant :=
    { RoomJoin := true
      Room := roomName
      CanPublish := some canPublish
      CanSubscribe := some canSubscribe }
  let tk := ((tk.AddGrant grant).SetIdentity identity).SetValidFor (24 * Hour)
  if name ≠ "" then
    tk.SetName name
  else
    tk

/-- Go `generateAccessToken` (lines 121-143), called at instant `now`. -/
def generateAccessToken (cfg : Config) (toJWT : Signer) (now : Instant)
    (roomName identity name : String) : Except String String :=
  toJWT now (credential cfg roomName identity name)

/-! ## HTTP layer (lines 90-119, 152-160) -/

def StatusOK : Nat := 200
def StatusBadRequest : Nat := 400
def StatusInternalServerError : Nat := 500

/-- The values the handler passes to the JSON encoder. -/
inductive Payload where
  | token (r : TokenResponse)
  | error (e : ErrorResponse)
deriving DecidableEq, Repr

/-- What `respondWithJSON` writes: the content type, the status code and the
encoded payload. -/
structure Response where
  contentType : String
  code : Nat
  payload : Payload
deriving DecidableEq, Repr

/-- Go `respondWithJSON` (lines 152-156). -/
def respondWithJSON (code : Nat) (payload : Payload) : Response :=
  { contentType := "application/json", code := code, payload := payload }

/-- Go `respondWithError` (lines 158-160). -/
def respondWithError (code : Nat) (message : String) : Response :=
  respondWithJSON code (Payload.error { Error := message })

/-- The members a request body supplies for the three JSON keys of
`TokenRequest`; `none` is an absent key. -/
structure Members where
  roomName : Option String
  identity : Option String
  name : Option String
deriving DecidableEq, Repr

/-- The JSON decoder, a parameter: from the body, either the members it
supplies or an error (its message). -/
abbrev Decoder := String → Except String Members

/-- The value of `var req TokenRequest` (line 91). -/
def TokenRequest.zero : TokenRequest :=
  { RoomName := "", Identity := "", Name := "" }

/-- Storing decoded members in a struct: a field whose key is absent keeps
the value it had. -/
def TokenRequest.assign (req : TokenRequest) (m : Members) : TokenRequest :=
  { RoomName := m.roomName.getD req.RoomName
    Identity := m.identity.getD req.Identity
    Name := m.name.getD req.Name }

/-- The call `json.NewDecoder(r.Body).Decode(&req)` of line 92. -/
def Decode (dec : Decoder) (body : String) (req : TokenRequest) :
    Except String TokenRequest :=
  match dec body with
  | .ok m => .ok (req.assign m)
  | .error e => .error e

/-- One handled request: the response written, the argument triples
(roomName, identity, name) of the calls made to `generateAccessToken`, and
the lines logged. -/
structure Outcome where
  response : Response
  issuerCalls : List (String × String × String)
  logged : List String
deriving DecidableEq, Repr

/-- Go `generateTokenHandler` (lines 90-119), for a request with the given
body handled at instant `now`. -/
def generateTokenHandler (cfg : Config) (dec : Decoder) (toJWT : Signer)
    (now : Instant) (body : String) : Outcome :=
  let req := TokenRequest.zero
  match Decode dec body req with
  | .error _ =>
    { response := respondWithError StatusBadRequest "Invalid request body"
      issuerCalls := []
      logged := [] }
  | .ok req =>
    if req.RoomName = "" ∨ req.Identity = "" then
      { response := respondWithError StatusBadRequest "roomName and identity are required"
        issuerCalls := []
        logged := [] }
    else
      match generateAccessToken cfg toJWT now req.RoomName req.Identity req.Name with
      | .error err =>
        { response := respondWithError StatusInternalServerError "Failed to generate token"
          issuerCalls := [(req.RoomName, req.Identity, req.Name)]
          logged := ["Error generating token: " ++ err] }
      | .ok token =>
        let response : TokenResponse :=
          { Token := token
            URL := cfg.livekitURL
            RoomName := req.RoomName
            Identity := req.Identity }
        { response := respondWithJSON StatusOK (Payload.token response)
          issuerCalls := [(req.RoomName, req.Identity, req.Name)]
          logged := [] }

/-! ## The signing library's `ToJWT` -/

/-- The claims that the library's `ToJWT` serialises and signs: the issuer
(the API key), the subject (the identity), the two numeric dates, in whole
seconds since the Unix epoch, and the name and grant of the credential. -/
structure Claims where
  issuer : String
  subject : String
  notBefore : Int
  expiry : Int
  name : Option String
  video : Option VideoGrant
deriving DecidableEq, Repr

/-- The validity the library substitutes when none has been set. -/
def defaultValidDuration : Duration := 6 * Hour

/-- The signing library's `ToJWT`, which is not under `src/`: it refuses a
credential whose key or secret is empty and otherwise returns the compact
serialisation of the claims, signed with the secret. Its numeric dates are the
clock reading and the clock reading plus the validity, each cut to whole
seconds. The serialisation `encode` (secret, claims) is a parameter. -/
def ToJWT (encode : String → Claims → String) : Signer := fun now tk =>
  if tk.apiKey = "" ∨ tk.secret = "" then
    .error "ErrKeysMissing"
  else
    let validFor := if tk.validFor > 0 then tk.validFor else defaultValidDuration
    .ok (encode tk.secret
      { issuer := tk.apiKey
        subject := tk.identity
        notBefore := now / Second
        expiry := (now + validFor) / Second
        name := tk.name
        video := tk.video })

/-! ## The standard library's streaming JSON decoder -/

/-- The first step of the library's `Decoder.Decode`, a parameter: it reads the
next JSON value off the front of the input and returns the text of that value
and the input left unread, or an error when the input does not start with a
complete JSON value. -/
abbrev Scanner := String → Except String (String × String)

/-- JSON white space. -/
def isJSONSpace (c : Char) : Bool :=
  c = ' ' || c = '\t' || c = '\n' || c = '\r'

/-- The library's `Decoder.Decode`: the value that `scan` reads off the front
of the body is handed to `unmarshal`; the input left unread is not looked
at. -/
def streamDecoder (scan : Scanner) (unmarshal : String → Except String Members) : Decoder :=
  fun body =>
    match scan body with
    | .error e => .error e
    | .ok (value, _) => unmarshal value

/-- A body is a JSON document when it is one JSON value followed by white
space only. -/
def isJSONDocument (scan : Scanner) (body : String) : Bool :=
  match scan body with
  | .error _ => false
  | .ok (_, rest) => rest.data.all isJSONSpace

/-! ## Sample collaborators, used at concrete inputs -/

/-- The body of the spec's first scenario. -/
def room1AliceBody : String :=
  "\x7b\"roomName\":\"room1\",\"identity\":\"alice\"\x7d"

/-- The body of the spec's second scenario: an empty room name. -/
def emptyRoomBody : String :=
  "\x7b\"roomName\":\"\",\"identity\":\"alice\"\x7d"

/-- A body with no `roomName` key. -/
def noRoomBody : String :=
  "\x7b\"identity\":\"alice\"\x7d"

/-- A body that is not JSON. -/
def brokenBody : String :=
  "\x7b\"roomName\":"

/-- A decoder given by a table: the three bodies above that are JSON objects
decode to their members, every other body is rejected. -/
def tableDecoder : Decoder := fun body =>
  if body = room1AliceBody then
    .ok { roomName := some "room1", identity := some "alice", name := none }
  else if body = emptyRoomBody then
    .ok { roomName := some "", identity := some "alice", name := none }
  else if body = noRoomBody then
    .ok { roomName := none, identity := some "alice", name := none }
  else
    .error "unexpected EOF"

/-- A signer that always reports an error. -/
def failingSigner (detail : String) : Signer := fun _ _ =>
  .error detail

/-- A signer that stamps the expiry in whole seconds, as the numeric dates of
a compact JWT do. -/
def secondsSigner : Signer := fun now tk =>
  .ok (tk.identity ++ "." ++ toString (tk.expiry now / Second))

/-- The configuration of a process started with none of the variables set. -/
def defaultConfig : Config := loadEnv []

/-- The first scenario's body followed by three characters that are not JSON. -/
def trailingBody : String :=
  "\x7b\"roomName\":\"room1\",\"identity\":\"alice\"\x7dxyz"

/-- The sample scanner's loop over the characters after the opening bracket:
`closers` are the brackets still to be closed, innermost first, `inString`
and `escaped` tell whether the loop is inside a string and just after a
backslash, and `seen` is the text read so far, last character first. -/
def scanLoop : List Char → List Char → Bool → Bool → List Char →
    Except String (List Char × List Char)
  | [], _, _, _, _ => .error "unexpected EOF"
  | c :: cs, closers, inString, escaped, seen =>
    if inString then
      if escaped then scanLoop cs closers true false (c :: seen)
      else if c = Char.ofNat 92 then scanLoop cs closers true true (c :: seen)
      else if c = Char.ofNat 34 then scanLoop cs closers false false (c :: seen)
      else scanLoop cs closers true false (c :: seen)
    else if c = Char.ofNat 34 then scanLoop cs closers true false (c :: seen)
    else if c = Char.ofNat 123 then scanLoop cs (Char.ofNat 125 :: closers) false false (c :: seen)
    else if c = '[' then scanLoop cs (']' :: closers) false false (c :: seen)
    else if c = Char.ofNat 125 ∨ c = ']' then
      match closers with
      | [] => .error "invalid character"
      | d :: ds =>
        if c = d then
          if ds = [] then .ok ((c :: seen).reverse, cs)
          else scanLoop cs ds false false (c :: seen)
        else .error "invalid character"
    else scanLoop cs closers false false (c :: seen)

/-- A scanner for bodies that start with an object or an array: it skips
leading white space and reads up to the bracket that closes the first one. -/
def sampleScan : Scanner := fun body =>
  match body.data.dropWhile isJSONSpace with
  | [] => .error "EOF"
  | c :: cs =>
    if c = Char.ofNat 123 then
      (scanLoop cs [Char.ofNat 125] false false [c]).map
        (fun p => (String.mk p.1, String.mk p.2))
    else if c = '[' then
      (scanLoop cs [']'] false false [c]).map
        (fun p => (String.mk p.1, String.mk p.2))
    else .error "invalid character"

/-- Storing a scanned value, by the table of `tableDecoder`. -/
def tableUnmarshal (value : String) : Except String Members :=
  match tableDecoder value with
  | .ok m => .ok m
  | .error _ => .error "json: cannot unmarshal value into Go value of type main.TokenRequest"

/-- The streaming decoder made of the sample scanner and the table. -/
def sampleDecoder : Decoder := streamDecoder sampleScan tableUnmarshal

/-- Decimal digits of `n`, most significant first; `fuel` bounds their number. -/
def decimalAux : Nat → Nat → List Char
  | 0, _ => []
  | fuel + 1, n =>
    if n < 10 then [Char.ofNat (48 + n)]
    else decimalAux fuel (n / 10) ++ [Char.ofNat (48 + n % 10)]

/-- Decimal text of an integer. -/
def decimal (i : Int) : List Char :=
  if i < 0 then '-' :: decimalAux (i.natAbs + 1) i.natAbs
  else decimalAux (i.natAbs + 1) i.natAbs

/-- Reading decimal digits up to the first full stop. -/
def readDigits : List Char → Nat → Option Nat
  | [], _ => none
  | c :: cs, acc =>
    if c = '.' then some acc
    else if 48 ≤ c.toNat ∧ c.toNat < 58 then readDigits cs (acc * 10 + (c.toNat - 48))
    else none

/-- Reading the integer that a sample token starts with. -/
def readLeadingInt (token : String) : Option Int :=
  match token.data with
  | [] => none
  | c :: cs =>
    if c = '-' then (readDigits cs 0).map (fun n : Nat => -Int.ofNat n)
    else (readDigits (c :: cs) 0).map (fun n : Nat => Int.ofNat n)

/-- A sample serialisation: expiry, not-before, issuer and subject, separated
by full stops. -/
def sampleEncode : String → Claims → String := fun _ c =>
  String.mk (decimal c.expiry ++ ('.' :: (decimal c.notBefore ++
    ('.' :: (c.issuer.data ++ ('.' :: c.subject.data))))))

/-! ## Auxiliary facts -/

theorem Decode_eq_ok (dec : Decoder) (body : String) (req : TokenRequest) (m : Members)
    (h : dec body = .ok m) : Decode dec body req = .ok (req.assign m) := by
  simp [Decode, h]

theorem Decode_eq_error (dec : Decoder) (body : String) (req : TokenRequest) (e : String)
    (h : dec body = .error e) : Decode dec body req = .error e := by
  simp [Decode, h]

theorem getEnv_ne_empty (env : Env) (key defaultValue : String) (h : defaultValue ≠ "") :
    getEnv env key defaultValue ≠ "" := by
  unfold getEnv
  by_cases hv : Getenv env key = ""
  · simpa [hv] using h
  · simp [hv]

theorem credential_of_empty_name (cfg : Config) (roomName identity : String) :
    credential cfg roomName identity "" =
      { apiKey := cfg.livekitAPIKey
        secret := cfg.livekitAPISecret
        identity := identity
        name := none
        video := some { RoomJoin := true, Room := roomName,
                        CanPublish := some true, CanSubscribe := some true }
        validFor := 24 * Hour } := by
  simp [credential, NewAccessToken, AccessToken.AddGrant, AccessToken.SetIdentity,
    AccessToken.SetValidFor]

theorem credential_of_name (cfg : Config) (roomName identity name : String) (h : name ≠ "") :
    credential cfg roomName identity name =
      { apiKey := cfg.livekitAPIKey
        secret := cfg.livekitAPISecret
        identity := identity
        name := some name
        video := some { RoomJoin := true, Room := roomName,
                        CanPublish := some true, CanSubscribe := some true }
        validFor := 24 * Hour } := by
  simp [credential, NewAccessToken, AccessToken.AddGrant, AccessToken.SetIdentity,
    AccessToken.SetValidFor, AccessToken.SetName, h]

theorem credential_erase_name (cfg : Config) (roomName identity name : String) :
    { credential cfg roomName identity name with name := none } =
      credential cfg roomName identity "" := by
  by_cases h : name = ""
  · subst h
    rw [credential_of_empty_name]
  · rw [credential_of_name cfg roomName identity name h, credential_of_empty_name]

theorem generateTokenHandler_of_decode_error (cfg : Config) (dec : Decoder) (toJWT : Signer)
    (now : Instant) (body e : String)
    (hdec : Decode dec body TokenRequest.zero = .error e) :
    generateTokenHandler cfg dec toJWT now body =
      { response := respondWithError StatusBadRequest "Invalid request body"
        issuerCalls := []
        logged := [] } := by
  simp [generateTokenHandler, hdec]

theorem generateTokenHandler_of_empty_field (cfg : Config) (dec : Decoder) (toJWT : Signer)
    (now : Instant) (body : String) (req : TokenRequest)
    (hdec : Decode dec body TokenRequest.zero = .ok req)
    (hempty : req.RoomName = "" ∨ req.Identity = "") :
    generateTokenHandler cfg dec toJWT now body =
      { response := respondWithError StatusBadRequest "roomName and identity are required"
        issuerCalls := []
        logged := [] } := by
  simp [generateTokenHandler, hdec, hempty]

theorem generateTokenHandler_of_issuer_error (cfg : Config) (dec : Decoder) (toJWT : Signer)
    (now : Instant) (body : String) (req : TokenRequest) (err : String)
    (hdec : Decode dec body TokenRequest.zero = .ok req)
    (hroom : req.RoomName ≠ "") (hid : req.Identity ≠ "")
    (hsign : generateAccessToken cfg toJWT now req.RoomName req.Identity req.Name = .error err) :
    generateTokenHandler cfg dec toJWT now body =
      { response := respondWithError StatusInternalServerError "Failed to generate token"
        issuerCalls := [(req.RoomName, req.Identity, req.Name)]
        logged := ["Error generating token: " ++ err] } := by
  simp [generateTokenHandler, hdec, hroom, hid, hsign]

theorem generateTokenHandler_of_issuer_ok (cfg : Config) (dec : Decoder) (toJWT : Signer)
    (now : Instant) (body : String) (req : TokenRequest) (token : String)
    (hdec : Decode dec body TokenRequest.zero = .ok req)
    (hroom : req.RoomName ≠ "") (hid : req.Identity ≠ "")
    (hsign : generateAccessToken cfg toJWT now req.RoomName req.Identity req.Name = .ok token) :
    generateTokenHandler cfg dec toJWT now body =
      { response := respondWithJSON StatusOK
          (Payload.token { Token := token, URL := cfg.livekitURL,
                           RoomName := req.RoomName, Identity := req.Identity })
        issuerCalls := [(req.RoomName, req.Identity, req.Name)]
        logged := [] } := by
  simp [generateTokenHandler, hdec, hroom, hid, hsign]

theorem assign_zero_roomName_empty (m : Members) :
    (TokenRequest.zero.assign m).RoomName = "" ↔ m.roomName = none ∨ m.roomName = some "" := by
  cases h : m.roomName <;> simp [TokenRequest.assign, TokenRequest.zero, h]

theorem assign_zero_identity_empty (m : Members) :
    (TokenRequest.zero.assign m).Identity = "" ↔ m.identity = none ∨ m.identity = some "" := by
  cases h : m.identity <;> simp [TokenRequest.assign, TokenRequest.zero, h]

theorem credential_eq (cfg : Config) (roomName identity name : String) :
    credential cfg roomName identity name =
      { apiKey := cfg.livekitAPIKey
        secret := cfg.livekitAPISecret
        identity := identity
        name := if name = "" then none else some name
        video := some { RoomJoin := true, Room := roomName,
                        CanPublish := some true, CanSubscribe := some true }
        validFor := 24 * Hour } := by
  by_cases h : name = ""
  · subst h
    rw [credential_of_empty_name]
    rfl
  · rw [credential_of_name cfg roomName identity name h]
    simp [h]

theorem day_of_seconds (t : Int) : (t + 24 * Hour) / Second = t / Second + 86400 := by
  have h24 : (24 : Int) * Hour = 86400 * Second := by decide
  have hs : Second = 1000000000 := by decide
  rw [h24, hs]
  omega

theorem ToJWT_credential (cfg : Config) (encode : String → Claims → String) (now : Instant)
    (roomName identity name : String)
    (hkey : cfg.livekitAPIKey ≠ "") (hsecret : cfg.livekitAPISecret ≠ "") :
    ToJWT encode now (credential cfg roomName identity name) =
      .ok (encode cfg.livekitAPISecret
        { issuer := cfg.livekitAPIKey
          subject := identity
          notBefore := now / Second
          expiry := now / Second + 86400
          name := if name = "" then none else some name
          video := some { RoomJoin := true, Room := roomName,
                          CanPublish := some true, CanSubscribe := some true } }) := by
  have hpos : (24 : Int) * Hour > 0 := by decide
  rw [credential_eq]
  simp only [ToJWT, hkey, hsecret, or_self, if_false, hpos, if_true, day_of_seconds]

theorem loadEnv_key_ne_empty (env : Env) : (loadEnv env).livekitAPIKey ≠ "" :=
  getEnv_ne_empty env "LIVEKIT_API_KEY" "devkey" (by decide)

theorem loadEnv_secret_ne_empty (env : Env) : (loadEnv env).livekitAPISecret ≠ "" :=
  getEnv_ne_empty env "LIVEKIT_API_SECRET" "APIsecretkey123" (by decide)

theorem streamDecoder_of_scan_error (scan : Scanner) (unmarshal : String → Except String Members)
    (body e : String) (h : scan body = .error e) :
    streamDecoder scan unmarshal body = .error e := by
  simp [streamDecoder, h]

theorem streamDecoder_of_scan_ok (scan : Scanner) (unmarshal : String → Except String Members)
    (body value rest : String) (h : scan body = .ok (value, rest)) :
    streamDecoder scan unmarshal body = unmarshal value := by
  simp [streamDecoder, h]

theorem digit_char (d : Nat) (h : d < 10) :
    Char.ofNat (48 + d) ≠ '.' ∧ Char.ofNat (48 + d) ≠ '-' ∧
      48 ≤ (Char.ofNat (48 + d)).toNat ∧ (Char.ofNat (48 + d)).toNat < 58 ∧
      (Char.ofNat (48 + d)).toNat - 48 = d := by
  interval_cases d <;> decide

theorem readDigits_digit (d : Nat) (h : d < 10) (rest : List Char) (acc : Nat) :
    readDigits (Char.ofNat (48 + d) :: rest) acc = readDigits rest (acc * 10 + d) := by
  obtain ⟨h1, _, h3, h4, h5⟩ := digit_char d h
  simp [readDigits, h1, h3, h4, h5]

theorem readDigits_decimalAux (fuel : Nat) :
    ∀ n, n < fuel → ∀ rest, ∃ k, ∀ acc,
      readDigits (decimalAux fuel n ++ rest) acc = readDigits rest (acc * 10 ^ k + n) := by
  induction fuel with
  | zero => intro n h; omega
  | succ fuel ih =>
    intro n hn rest
    by_cases hsmall : n < 10
    · refine ⟨1, fun acc => ?_⟩
      simp only [decimalAux, hsmall, if_true, List.singleton_append, pow_one]
      exact readDigits_digit n hsmall rest acc
    · obtain ⟨k, hk⟩ := ih (n / 10) (by omega) (Char.ofNat (48 + n % 10) :: rest)
      refine ⟨k + 1, fun acc => ?_⟩
      simp only [decimalAux, hsmall, if_false, List.append_assoc, List.singleton_append]
      rw [hk acc, readDigits_digit (n % 10) (Nat.mod_lt n (by decide)) rest]
      congr 1
      rw [pow_succ, ← Nat.mul_assoc]
      generalize acc * 10 ^ k = x
      omega

theorem decimalAux_head (fuel : Nat) :
    ∀ n, n < fuel → ∃ c cs, decimalAux fuel n = c :: cs ∧ c ≠ '-' := by
  induction fuel with
  | zero => intro n h; omega
  | succ fuel ih =>
    intro n hn
    by_cases hsmall : n < 10
    · exact ⟨_, [], by simp [decimalAux, hsmall], (digit_char n hsmall).2.1⟩
    · obtain ⟨c, cs, hc, hne⟩ := ih (n / 10) (by omega)
      exact ⟨c, cs ++ [Char.ofNat (48 + n % 10)], by simp [decimalAux, hsmall, hc], hne⟩

theorem readLeadingInt_decimal (i : Int) (rest : List Char) :
    readLeadingInt (String.mk (decimal i ++ '.' :: rest)) = some i := by
  obtain ⟨k, hk⟩ := readDigits_decimalAux (i.natAbs + 1) i.natAbs (Nat.lt_succ_self _)
    ('.' :: rest)
  have hk0 := hk 0
  have hstop : ∀ acc, readDigits ('.' :: rest) acc = some acc := fun acc => by
    simp [readDigits]
  rw [hstop, Nat.zero_mul, Nat.zero_add] at hk0
  by_cases hneg : i < 0
  · simp only [readLeadingInt, decimal, hneg, if_true, List.cons_append, hk0, Option.map_some',
      Option.some.injEq]
    simp only [Int.ofNat_eq_coe]
    omega
  · obtain ⟨c, cs, hc, hne⟩ := decimalAux_head (i.natAbs + 1) i.natAbs (Nat.lt_succ_self _)
    rw [hc] at hk0
    simp only [List.cons_append] at hk0
    simp only [readLeadingInt, decimal, hneg, if_false, hc, List.cons_append, hne, hk0,
      Option.map_some', Option.some.injEq]
    simp only [Int.ofNat_eq_coe]
    omega

theorem readLeadingInt_sampleEncode (key : String) (c : Claims) :
    readLeadingInt (sampleEncode key c) = some c.expiry := by
  unfold sampleEncode
  exact readLeadingInt_decimal c.expiry _

/-! ## The claims -/

/-- C1: under the configuration that loadEnv gives for any environment, and
with the library's ToJWT as signer, a body that decodes to a request with
non-empty roomName and identity gets status 200 and a TokenResponse whose
token is the string generateAccessToken returned, whose url is the configured
livekitURL and whose roomName and identity are the request's, unchanged; the
issuer was called once, with the request's three fields. Under the default
configuration the url is ws://localhost:7880. For any configuration and
signer, a string returned by generateAccessToken is answered in the same
way. -/
theorem generateTokenHandler_ok (env : Env) (dec : Decoder)
    (encode : String → Claims → String) (now : Instant) (body : String) (req : TokenRequest)
    (hdec : Decode dec body TokenRequest.zero = .ok req)
    (hroom : req.RoomName ≠ "") (hid : req.Identity ≠ "") :
    (∃ token,
      generateAccessToken (loadEnv env) (ToJWT encode) now req.RoomName req.Identity req.Name
        = .ok token ∧
      generateTokenHandler (loadEnv env) dec (ToJWT encode) now body =
        { response :=
            { contentType := "application/json"
              code := 200
              payload := Payload.token
                { Token := token, URL := (loadEnv env).livekitURL,
                  RoomName := req.RoomName, Identity := req.Identity } }
          issuerCalls := [(req.RoomName, req.Identity, req.Name)]
          logged := [] }) ∧
      (loadEnv []).livekitURL = "ws://localhost:7880" ∧
      (∀ (cfg : Config) (toJWT : Signer) (token : String),
        generateAccessToken cfg toJWT now req.RoomName req.Identity req.Name = .ok token →
        generateTokenHandler cfg dec toJWT now body =
          { response :=
              { contentType := "application/json"
                code := 200
                payload := Payload.token
                  { Token := token, URL := cfg.livekitURL,
                    RoomName := req.RoomName, Identity := req.Identity } }
            issuerCalls := [(req.RoomName, req.Identity, req.Name)]
            logged := [] }) := by
  have hany : ∀ (cfg : Config) (toJWT : Signer) (token : String),
      generateAccessToken cfg toJWT now req.RoomName req.Identity req.Name = .ok token →
      generateTokenHandler cfg dec toJWT now body =
        { response :=
            { contentType := "application/json"
              code := 200
              payload := Payload.token
                { Token := token, URL := cfg.livekitURL,
                  RoomName := req.RoomName, Identity := req.Identity } }
          issuerCalls := [(req.RoomName, req.Identity, req.Name)]
          logged := [] } := by
    intro cfg toJWT token hsign
    rw [generateTokenHandler_of_issuer_ok cfg dec toJWT now body req token hdec hroom hid hsign]
    rfl
  have hsign := ToJWT_credential (loadEnv env) encode now req.RoomName req.Identity req.Name
    (loadEnv_key_ne_empty env) (loadEnv_secret_ne_empty env)
  exact ⟨⟨_, hsign, hany _ _ _ hsign⟩, by decide, hany⟩

/-- C1 at the spec's scenario: the body with roomName room1 and identity
alice, under the default configuration, handled at 2024-11-02T00:00:00Z. -/
theorem generateTokenHandler_ok_witness :
    Decode tableDecoder room1AliceBody TokenRequest.zero =
        .ok { RoomName := "room1", Identity := "alice", Name := "" } ∧
      (∃ token,
        generateAccessToken (loadEnv []) (ToJWT sampleEncode) 1730505600000000000
          "room1" "alice" "" = .ok token ∧
        generateTokenHandler (loadEnv []) tableDecoder (ToJWT sampleEncode) 1730505600000000000
            room1AliceBody =
          { response :=
              { contentType := "application/json"
                code := 200
                payload := Payload.token
                  { Token := token, URL := (loadEnv []).livekitURL,
                    RoomName := "room1", Identity := "alice" } }
            issuerCalls := [("room1", "alice", "")]
            logged := [] }) ∧
      generateTokenHandler (loadEnv []) tableDecoder (ToJWT sampleEncode) 1730505600000000000
          room1AliceBody =
        { response :=
            { contentType := "application/json"
              code := 200
              payload := Payload.token
                { Token := "1730592000.1730505600.devkey.alice", URL := "ws://localhost:7880",
                  RoomName := "room1", Identity := "alice" } }
          issuerCalls := [("room1", "alice", "")]
          logged := [] } :=
  ⟨rfl,
    (generateTokenHandler_ok [] tableDecoder sampleEncode 1730505600000000000 room1AliceBody
      { RoomName := "room1", Identity := "alice", Name := "" } rfl (by decide) (by decide)).1,
    (generateTokenHandler_ok [] tableDecoder sampleEncode 1730505600000000000 room1AliceBody
      { RoomName := "room1", Identity := "alice", Name := "" } rfl (by decide) (by decide)).2.2
      (loadEnv []) (ToJWT sampleEncode) "1730592000.1730505600.devkey.alice" rfl⟩

/-- C2: when the decoded request has roomName or identity empty, be it the
empty string in the body or an absent key, the handler answers 400 with the
error "roomName and identity are required", makes no call to
generateAccessToken and logs nothing; and that response is written only for
a body that decodes and leaves one of the two fields empty. -/
theorem generateTokenHandler_missing_field (cfg : Config) (dec : Decoder) (toJWT : Signer)
    (now : Instant) (body : String) :
    (∀ m, dec body = .ok m →
        (m.roomName = none ∨ m.roomName = some "" ∨ m.identity = none ∨ m.identity = some "") →
        generateTokenHandler cfg dec toJWT now body =
          { response :=
              { contentType := "application/json"
                code := 400
                payload := Payload.error { Error := "roomName and identity are required" } }
            issuerCalls := []
            logged := [] }) ∧
      ((generateTokenHandler cfg dec toJWT now body).response =
          { contentType := "application/json"
            code := 400
            payload := Payload.error { Error := "roomName and identity are required" } } →
        ∃ req, Decode dec body TokenRequest.zero = .ok req ∧
          (req.RoomName = "" ∨ req.Identity = "")) := by
  constructor
  · intro m hm hempty
    have hdec := Decode_eq_ok dec body TokenRequest.zero m hm
    have hfield : (TokenRequest.zero.assign m).RoomName = "" ∨
        (TokenRequest.zero.assign m).Identity = "" := by
      rw [assign_zero_roomName_empty, assign_zero_identity_empty]
      tauto
    rw [generateTokenHandler_of_empty_field cfg dec toJWT now body _ hdec hfield]
    rfl
  · intro hresp
    cases hdec : Decode dec body TokenRequest.zero with
    | error e =>
      rw [generateTokenHandler_of_decode_error cfg dec toJWT now body e hdec] at hresp
      simp [respondWithError, respondWithJSON] at hresp
    | ok req =>
      refine ⟨req, rfl, ?_⟩
      by_contra hne
      push_neg at hne
      cases hsign : generateAccessToken cfg toJWT now req.RoomName req.Identity req.Name with
      | error err =>
        rw [generateTokenHandler_of_issuer_error cfg dec toJWT now body req err hdec
          hne.1 hne.2 hsign] at hresp
        simp [respondWithError, respondWithJSON, StatusInternalServerError] at hresp
      | ok token =>
        rw [generateTokenHandler_of_issuer_ok cfg dec toJWT now body req token hdec
          hne.1 hne.2 hsign] at hresp
        simp [respondWithJSON, StatusOK] at hresp

/-- C2 at the spec's scenario (roomName empty) and at a body without the
roomName key: both get the 400 response and no call to the issuer. -/
theorem generateTokenHandler_missing_field_witness :
    generateTokenHandler defaultConfig tableDecoder secondsSigner 0 emptyRoomBody =
        { response :=
            { contentType := "application/json"
              code := 400
              payload := Payload.error { Error := "roomName and identity are required" } }
          issuerCalls := []
          logged := [] } ∧
      generateTokenHandler defaultConfig tableDecoder secondsSigner 0 noRoomBody =
        { response :=
            { contentType := "application/json"
              code := 400
              payload := Payload.error { Error := "roomName and identity are required" } }
          issuerCalls := []
          logged := [] } :=
  ⟨(generateTokenHandler_missing_field defaultConfig tableDecoder secondsSigner 0
      emptyRoomBody).1 { roomName := some "", identity := some "alice", name := none } rfl
      (Or.inr (Or.inl rfl)),
    (generateTokenHandler_missing_field defaultConfig tableDecoder secondsSigner 0
      noRoomBody).1 { roomName := none, identity := some "alice", name := none } rfl
      (Or.inl rfl)⟩

/-- C3, as the code has it: a body on which the decoder returns an error gets
400 with the error "Invalid request body", with no call to
generateAccessToken and nothing logged. With the library's streaming decoder
that is a body that does not start with a complete JSON value, or whose
leading value cannot be stored in a TokenRequest; and a 200 is given only
when the leading value decodes to a request with non-empty roomName and
identity. -/
theorem generateTokenHandler_malformed_body (cfg : Config) (scan : Scanner)
    (unmarshal : String → Except String Members) (toJWT : Signer) (now : Instant)
    (body : String) :
    (∀ (dec : Decoder) (e : String), dec body = .error e →
        generateTokenHandler cfg dec toJWT now body =
          { response :=
              { contentType := "application/json"
                code := 400
                payload := Payload.error { Error := "Invalid request body" } }
            issuerCalls := []
            logged := [] }) ∧
      (∀ e, scan body = .error e →
        generateTokenHandler cfg (streamDecoder scan unmarshal) toJWT now body =
          { response :=
              { contentType := "application/json"
                code := 400
                payload := Payload.error { Error := "Invalid request body" } }
            issuerCalls := []
            logged := [] }) ∧
      (∀ value rest e, scan body = .ok (value, rest) → unmarshal value = .error e →
        generateTokenHandler cfg (streamDecoder scan unmarshal) toJWT now body =
          { response :=
              { contentType := "application/json"
                code := 400
                payload := Payload.error { Error := "Invalid request body" } }
            issuerCalls := []
            logged := [] }) ∧
      ((generateTokenHandler cfg (streamDecoder scan unmarshal) toJWT now body).response.code
          = 200 →
        ∃ value rest m, scan body = .ok (value, rest) ∧ unmarshal value = .ok m ∧
          (TokenRequest.zero.assign m).RoomName ≠ "" ∧
          (TokenRequest.zero.assign m).Identity ≠ "") := by
  have hgen : ∀ (dec : Decoder) (e : String), dec body = .error e →
      generateTokenHandler cfg dec toJWT now body =
        { response :=
            { contentType := "application/json"
              code := 400
              payload := Payload.error { Error := "Invalid request body" } }
          issuerCalls := []
          logged := [] } := by
    intro dec e he
    rw [generateTokenHandler_of_decode_error cfg dec toJWT now body e
      (Decode_eq_error dec body TokenRequest.zero e he)]
    rfl
  refine ⟨hgen, ?_, ?_, ?_⟩
  · intro e he
    exact hgen _ e (streamDecoder_of_scan_error scan unmarshal body e he)
  · intro value rest e hs hu
    exact hgen _ e ((streamDecoder_of_scan_ok scan unmarshal body value rest hs).trans hu)
  · intro hcode
    cases hs : scan body with
    | error e =>
      rw [hgen _ e (streamDecoder_of_scan_error scan unmarshal body e hs)] at hcode
      exact absurd hcode (by decide)
    | ok p =>
      obtain ⟨value, rest⟩ := p
      have hd := streamDecoder_of_scan_ok scan unmarshal body value rest hs
      cases hu : unmarshal value with
      | error e =>
        rw [hgen _ e (hd.trans hu)] at hcode
        exact absurd hcode (by decide)
      | ok m =>
        refine ⟨value, rest, m, rfl, hu, ?_⟩
        have hdec := Decode_eq_ok (streamDecoder scan unmarshal) body TokenRequest.zero m
          (hd.trans hu)
        by_contra hne
        have hempty : (TokenRequest.zero.assign m).RoomName = "" ∨
            (TokenRequest.zero.assign m).Identity = "" := by
          by_contra hboth
          push_neg at hboth
          exact hne hboth
        rw [generateTokenHandler_of_empty_field cfg _ toJWT now body _ hdec hempty] at hcode
        exact absurd hcode (by decide)

/-- C3 at a truncated body, which the sample scanner rejects. -/
theorem generateTokenHandler_malformed_body_witness :
    sampleScan brokenBody = .error "unexpected EOF" ∧
      generateTokenHandler defaultConfig sampleDecoder (ToJWT sampleEncode) 1730505600000000000
          brokenBody =
        { response :=
            { contentType := "application/json"
              code := 400
              payload := Payload.error { Error := "Invalid request body" } }
          issuerCalls := []
          logged := [] } :=
  ⟨rfl,
    (generateTokenHandler_malformed_body defaultConfig sampleScan tableUnmarshal
      (ToJWT sampleEncode) 1730505600000000000 brokenBody).2.1 "unexpected EOF" rfl⟩

/-- C3 as stated fails: a body made of a valid object followed by the
characters xyz is not a JSON document, yet the streaming decoder accepts its
leading object and the handler answers 200 with a token. -/
theorem generateTokenHandler_trailing_data_200 :
    isJSONDocument sampleScan trailingBody = false ∧
      sampleScan trailingBody = .ok (room1AliceBody, "xyz") ∧
      (generateTokenHandler defaultConfig sampleDecoder (ToJWT sampleEncode) 1730505600000000000
          trailingBody).response =
        { contentType := "application/json"
          code := 200
          payload := Payload.token
            { Token := "1730592000.1730505600.devkey.alice", URL := "ws://localhost:7880",
              RoomName := "room1", Identity := "alice" } } :=
  ⟨rfl, rfl, by decide⟩

/-- C4: for a valid request on which generateAccessToken returns an error,
the response is 500 with the error "Failed to generate token"; it is the
same response for any two signers, clock readings and errors, it carries no
TokenResponse, and the error's detail goes to the log only. -/
theorem generateTokenHandler_issuer_error (cfg : Config) (dec : Decoder)
    (toJWT1 toJWT2 : Signer) (now1 now2 : Instant) (body : String) (req : TokenRequest)
    (err1 err2 : String)
    (hdec : Decode dec body TokenRequest.zero = .ok req)
    (hroom : req.RoomName ≠ "") (hid : req.Identity ≠ "")
    (hsign1 : generateAccessToken cfg toJWT1 now1 req.RoomName req.Identity req.Name
      = .error err1)
    (hsign2 : generateAccessToken cfg toJWT2 now2 req.RoomName req.Identity req.Name
      = .error err2) :
    (generateTokenHandler cfg dec toJWT1 now1 body).response =
        { contentType := "application/json"
          code := 500
          payload := Payload.error { Error := "Failed to generate token" } } ∧
      (generateTokenHandler cfg dec toJWT2 now2 body).response =
        (generateTokenHandler cfg dec toJWT1 now1 body).response ∧
      (∀ r, (generateTokenHandler cfg dec toJWT1 now1 body).response.payload ≠ Payload.token r) ∧
      (generateTokenHandler cfg dec toJWT1 now1 body).logged =
        ["Error generating token: " ++ err1] := by
  rw [generateTokenHandler_of_issuer_error cfg dec toJWT1 now1 body req err1 hdec hroom hid hsign1,
    generateTokenHandler_of_issuer_error cfg dec toJWT2 now2 body req err2 hdec hroom hid hsign2]
  refine ⟨rfl, rfl, ?_, rfl⟩
  intro r h
  simp [respondWithError, respondWithJSON] at h

/-- C4 at the spec's valid body with two signers failing for different
reasons: one response, two log lines. -/
theorem generateTokenHandler_issuer_error_witness :
    (generateTokenHandler defaultConfig tableDecoder (failingSigner "keys missing") 0
        room1AliceBody).response =
        { contentType := "application/json"
          code := 500
          payload := Payload.error { Error := "Failed to generate token" } } ∧
      (generateTokenHandler defaultConfig tableDecoder (failingSigner "marshal failed") 5
        room1AliceBody).response =
        (generateTokenHandler defaultConfig tableDecoder (failingSigner "keys missing") 0
          room1AliceBody).response ∧
      (∀ r, (generateTokenHandler defaultConfig tableDecoder (failingSigner "keys missing") 0
        room1AliceBody).response.payload ≠ Payload.token r) ∧
      (generateTokenHandler defaultConfig tableDecoder (failingSigner "keys missing") 0
        room1AliceBody).logged = ["Error generating token: keys missing"] :=
  generateTokenHandler_issuer_error defaultConfig tableDecoder
    (failingSigner "keys missing") (failingSigner "marshal failed") 0 5 room1AliceBody
    { RoomName := "room1", Identity := "alice", Name := "" } "keys missing" "marshal failed"
    rfl (by decide) (by decide) rfl rfl

/-- C5: whatever the room, identity and name, the credential on which
generateAccessToken calls the signer has a validity of 24 hours, that is
86400 seconds, so a credential issued at instant t expires at t plus 86400
seconds; the duration fits Go's 64-bit Duration. -/
theorem generateAccessToken_validity (cfg : Config) (roomName identity name : String)
    (t : Instant) :
    ∃ c : AccessToken,
      (∀ (toJWT : Signer) (now : Instant),
        generateAccessToken cfg toJWT now roomName identity name = toJWT now c) ∧
      c.validFor = 24 * Hour ∧
      24 * Hour = 86400 * Second ∧
      c.expiry t = t + 86400 * Second ∧
      (c.expiry t - t) / Second = 86400 ∧
      24 * Hour < 2 ^ 63 := by
  have hv : (credential cfg roomName identity name).validFor = 24 * Hour := by
    rw [credential_eq]
  have h24 : (24 : Int) * Hour = 86400 * Second := by decide
  refine ⟨credential cfg roomName identity name, fun _ _ => rfl, hv, h24, ?_, ?_, by decide⟩
  · simp only [AccessToken.expiry, hv, h24]
  · simp only [AccessToken.expiry, hv, h24, add_sub_cancel_left]
    decide

/-- C5 at a credential issued at 2024-11-02T00:00:00Z: it expires at
2024-11-03T00:00:00Z. -/
theorem generateAccessToken_validity_witness :
    ∃ c : AccessToken,
      (∀ (toJWT : Signer) (now : Instant),
        generateAccessToken defaultConfig toJWT now "room1" "alice" "Alice" = toJWT now c) ∧
      c.validFor = 86400000000000 ∧
      c.expiry 1730505600000000000 = 1730592000000000000 := by
  obtain ⟨c, hlink, hvalid, _, hexpiry, _, _⟩ :=
    generateAccessToken_validity defaultConfig "room1" "alice" "Alice" 1730505600000000000
  exact ⟨c, hlink, hvalid.trans (by decide), hexpiry.trans (by decide)⟩

/-- C6: the credential on which generateAccessToken calls the signer carries
the given identity and the grant with roomJoin true, room the given
roomName, canPublish and canSubscribe true and every other permission field
at its zero value; the grant is the same for every identity and name. -/
theorem generateAccessToken_grant (cfg : Config) (roomName identity name : String) :
    ∃ c : AccessToken,
      (∀ (toJWT : Signer) (now : Instant),
        generateAccessToken cfg toJWT now roomName identity name = toJWT now c) ∧
      c.identity = identity ∧
      c.video =
        some { RoomCreate := false, RoomList := false, RoomRecord := false, RoomAdmin := false
               RoomJoin := true
               Room := roomName
               CanPublish := some true
               CanSubscribe := some true
               CanPublishData := none, CanPublishSources := [], CanUpdateOwnMetadata := none
               IngressAdmin := false, Hidden := false, Recorder := false, Agent := false } ∧
      (∀ identity2 name2 : String, ∃ c2 : AccessToken,
        (∀ (toJWT : Signer) (now : Instant),
          generateAccessToken cfg toJWT now roomName identity2 name2 = toJWT now c2) ∧
        c2.video = c.video) := by
  refine ⟨credential cfg roomName identity name, fun _ _ => rfl, ?_, ?_, ?_⟩
  · rw [credential_eq]
  · rw [credential_eq]
  · intro identity2 name2
    refine ⟨credential cfg roomName identity2 name2, fun _ _ => rfl, ?_⟩
    rw [credential_eq, credential_eq]

/-- C6 at room1 and alice under the default configuration: the claims that
the library's ToJWT serialises. -/
theorem generateAccessToken_grant_witness :
    generateAccessToken defaultConfig (ToJWT (fun _ c => c.subject ++ "@" ++
        (c.video.map VideoGrant.Room).getD "")) 0 "room1" "alice" "" = .ok "alice@room1" ∧
      ∃ c : AccessToken,
        (∀ (toJWT : Signer) (now : Instant),
          generateAccessToken defaultConfig toJWT now "room1" "alice" "" = toJWT now c) ∧
        c.identity = "alice" ∧
        c.video = some { RoomJoin := true, Room := "room1",
                         CanPublish := some true, CanSubscribe := some true } := by
  obtain ⟨c, hlink, hid, hvideo, _⟩ := generateAccessToken_grant defaultConfig "room1" "alice" ""
  exact ⟨rfl, c, hlink, hid, hvideo⟩

/-- C7, as the code has it: getEnv returns the environment's value when the
variable is set to a non-empty string, and the default when the variable is
absent or set to the empty string; so loadEnv on an environment with none of
the three variables set yields ws://localhost:7880, devkey and
APIsecretkey123. Both functions are total: there is no error result. -/
theorem getEnv_value_or_default (env : Env) (key defaultValue : String) :
    (∀ value, env.lookup key = some value → value ≠ "" →
        getEnv env key defaultValue = value) ∧
      (env.lookup key = none → getEnv env key defaultValue = defaultValue) ∧
      (env.lookup key = some "" → getEnv env key defaultValue = defaultValue) ∧
      (env.lookup "LIVEKIT_URL" = none → env.lookup "LIVEKIT_API_KEY" = none →
        env.lookup "LIVEKIT_API_SECRET" = none →
        loadEnv env =
          { livekitURL := "ws://localhost:7880"
            livekitAPIKey := "devkey"
            livekitAPISecret := "APIsecretkey123" }) := by
  refine ⟨?_, ?_, ?_, ?_⟩
  · intro value hv hne
    simp [getEnv, Getenv, hv, hne]
  · intro hv
    simp [getEnv, Getenv, hv]
  · intro hv
    simp [getEnv, Getenv, hv]
  · intro h1 h2 h3
    simp [loadEnv, getEnv, Getenv, h1, h2, h3]

/-- C7 at an environment that sets only the port and the media URL: the URL
is taken from the environment, the key from the default, and the empty
environment loads the three defaults. -/
theorem getEnv_value_or_default_witness :
    getEnv [("API_PORT", "8080"), ("LIVEKIT_URL", "wss://sfu.example.org")]
        "LIVEKIT_URL" "ws://localhost:7880" = "wss://sfu.example.org" ∧
      getEnv [("API_PORT", "8080"), ("LIVEKIT_URL", "wss://sfu.example.org")]
        "LIVEKIT_API_KEY" "devkey" = "devkey" ∧
      loadEnv [("API_PORT", "8080")] =
        { livekitURL := "ws://localhost:7880"
          livekitAPIKey := "devkey"
          livekitAPISecret := "APIsecretkey123" } :=
  ⟨(getEnv_value_or_default [("API_PORT", "8080"), ("LIVEKIT_URL", "wss://sfu.example.org")]
      "LIVEKIT_URL" "ws://localhost:7880").1 "wss://sfu.example.org" (by decide) (by decide),
    (getEnv_value_or_default [("API_PORT", "8080"), ("LIVEKIT_URL", "wss://sfu.example.org")]
      "LIVEKIT_API_KEY" "devkey").2.1 (by decide),
    (getEnv_value_or_default [("API_PORT", "8080")] "" "").2.2.2
      (by decide) (by decide) (by decide)⟩

/-- C7 as stated fails: with LIVEKIT_URL set, to the empty string, getEnv
does not return the environment's value but the default. -/
theorem getEnv_set_empty_gives_default :
    List.lookup "LIVEKIT_URL" ([("LIVEKIT_URL", "")] : Env) = some "" ∧
      getEnv [("LIVEKIT_URL", "")] "LIVEKIT_URL" "ws://localhost:7880" = "ws://localhost:7880" ∧
      getEnv [("LIVEKIT_URL", "")] "LIVEKIT_URL" "ws://localhost:7880" ≠ "" :=
  ⟨by decide, by decide, by decide⟩

/-- C8, as the code has it: under a loaded configuration and with the
library's ToJWT, whose dates are in whole seconds, two calls with the same
inputs at instants in different whole seconds return different strings,
given that the expiry can be read back from a signed string; both strings
serialise claims with the given identity as subject, the grant for the given
room with publish and subscribe permitted, and an expiry 86400 seconds after
the second of issue. Two calls within one whole second return the same
result. -/
theorem generateAccessToken_two_instants (env : Env) (encode : String → Claims → String)
    (readExpiry : String → Option Int) (roomName identity name : String) (t1 t2 : Instant)
    (hread : ∀ key c, readExpiry (encode key c) = some c.expiry)
    (hsec : t1 / Second ≠ t2 / Second) :
    (∃ s1 s2 c1 c2,
      generateAccessToken (loadEnv env) (ToJWT encode) t1 roomName identity name = .ok s1 ∧
      generateAccessToken (loadEnv env) (ToJWT encode) t2 roomName identity name = .ok s2 ∧
      s1 ≠ s2 ∧
      s1 = encode (loadEnv env).livekitAPISecret c1 ∧
      s2 = encode (loadEnv env).livekitAPISecret c2 ∧
      c1.subject = identity ∧ c2.subject = identity ∧
      c1.video = some { RoomJoin := true, Room := roomName,
                        CanPublish := some true, CanSubscribe := some true } ∧
      c2.video = c1.video ∧
      c1.expiry = t1 / Second + 86400 ∧
      c2.expiry = t2 / Second + 86400) ∧
    (∀ u1 u2 : Instant, u1 / Second = u2 / Second →
      generateAccessToken (loadEnv env) (ToJWT encode) u1 roomName identity name =
        generateAccessToken (loadEnv env) (ToJWT encode) u2 roomName identity name) := by
  have hsign : ∀ t : Instant,
      generateAccessToken (loadEnv env) (ToJWT encode) t roomName identity name = _ :=
    fun t => ToJWT_credential (loadEnv env) encode t roomName identity name
      (loadEnv_key_ne_empty env) (loadEnv_secret_ne_empty env)
  constructor
  · refine ⟨_, _, _, _, hsign t1, hsign t2, ?_, rfl, rfl, rfl, rfl, rfl, rfl, rfl, rfl⟩
    intro heq
    have h := congrArg readExpiry heq
    rw [hread, hread] at h
    simp only [Option.some.injEq] at h
    apply hsec
    have hcancel : ∀ a b : Int, a + 86400 = b + 86400 → a = b := fun a b hab => by omega
    exact hcancel _ _ h
  · intro u1 u2 hu
    rw [hsign u1, hsign u2, hu]

/-- C8 at 2024-11-02T00:00:00Z and one second later, with the sample
serialisation: the two signed strings differ in the expiry. -/
theorem generateAccessToken_two_instants_witness :
    generateAccessToken (loadEnv []) (ToJWT sampleEncode) 1730505600000000000
        "room1" "alice" "" = .ok "1730592000.1730505600.devkey.alice" ∧
      generateAccessToken (loadEnv []) (ToJWT sampleEncode) 1730505601000000000
        "room1" "alice" "" = .ok "1730592001.1730505601.devkey.alice" ∧
      ∃ s1 s2,
        generateAccessToken (loadEnv []) (ToJWT sampleEncode) 1730505600000000000
          "room1" "alice" "" = .ok s1 ∧
        generateAccessToken (loadEnv []) (ToJWT sampleEncode) 1730505601000000000
          "room1" "alice" "" = .ok s2 ∧
        s1 ≠ s2 := by
  obtain ⟨⟨s1, s2, _, _, h1, h2, hne, _⟩, _⟩ :=
    generateAccessToken_two_instants [] sampleEncode readLeadingInt "room1" "alice" ""
      1730505600000000000 1730505601000000000 readLeadingInt_sampleEncode (by decide)
  exact ⟨rfl, rfl, s1, s2, h1, h2, hne⟩

/-- C8 as stated fails: two calls with the same inputs half a second apart,
within one whole second, return the same signed string. -/
theorem generateAccessToken_same_second_same_output :
    (1730505600000000000 : Instant) ≠ 1730505600500000000 ∧
      generateAccessToken defaultConfig (ToJWT sampleEncode) 1730505600000000000
        "room1" "alice" "" = .ok "1730592000.1730505600.devkey.alice" ∧
      generateAccessToken defaultConfig (ToJWT sampleEncode) 1730505600500000000
        "room1" "alice" "" = .ok "1730592000.1730505600.devkey.alice" :=
  ⟨by decide, rfl, rfl⟩

/-- C9: the credential on which generateAccessToken calls the signer has a
name exactly when the given name is non-empty, and then it is that name;
with the empty name the credential has no name, and it is the credential
built with any name, with that name taken off. -/
theorem generateAccessToken_name (cfg : Config) (roomName identity name : String) :
    ∃ c c0 : AccessToken,
      (∀ (toJWT : Signer) (now : Instant),
        generateAccessToken cfg toJWT now roomName identity name = toJWT now c) ∧
      (∀ (toJWT : Signer) (now : Instant),
        generateAccessToken cfg toJWT now roomName identity "" = toJWT now c0) ∧
      (name ≠ "" → c.name = some name) ∧
      (name = "" → c.name = none) ∧
      (c.name.isSome = true ↔ name ≠ "") ∧
      c0.name = none ∧
      c0 = { c with name := none } := by
  refine ⟨credential cfg roomName identity name, credential cfg roomName identity "",
    fun _ _ => rfl, fun _ _ => rfl, ?_, ?_, ?_, ?_, ?_⟩
  · intro h
    rw [credential_of_name cfg roomName identity name h]
  · intro h
    subst h
    rw [credential_of_empty_name]
  · by_cases h : name = ""
    · subst h
      rw [credential_of_empty_name]
      simp
    · rw [credential_of_name cfg roomName identity name h]
      simp [h]
  · rw [credential_of_empty_name]
  · exact (credential_erase_name cfg roomName identity name).symm

/-- C9 at the name Alice and at a request body without a name key, seen
through a signer that returns the credential's name. -/
theorem generateAccessToken_name_witness :
    generateAccessToken defaultConfig (fun _ c => .ok (c.name.getD "no name")) 0
        "room1" "alice" "Alice" = .ok "Alice" ∧
      (Decode tableDecoder room1AliceBody TokenRequest.zero).toOption.map TokenRequest.Name =
        some "" ∧
      generateAccessToken defaultConfig (fun _ c => .ok (c.name.getD "no name")) 0
        "room1" "alice" "" = .ok "no name" ∧
      ∃ c : AccessToken,
        (∀ (toJWT : Signer) (now : Instant),
          generateAccessToken defaultConfig toJWT now "room1" "alice" "Alice" = toJWT now c) ∧
        c.name = some "Alice" := by
  obtain ⟨c, _, hlink, _, hname, _⟩ := generateAccessToken_name defaultConfig "room1" "alice" "Alice"
  exact ⟨rfl, rfl, rfl, c, hlink, hname (by decide)⟩

/-- C10: getEnv returns a non-empty string whenever its default is
non-empty, also when the variable is set to the empty string; so for every
environment the three settings loaded by loadEnv are non-empty, and the
credential on which the signer is called has a non-empty key and secret. -/
theorem loadEnv_settings_nonempty (env : Env) :
    (∀ key defaultValue : String, defaultValue ≠ "" → getEnv env key defaultValue ≠ "") ∧
      (loadEnv env).livekitURL ≠ "" ∧
      (loadEnv env).livekitAPIKey ≠ "" ∧
      (loadEnv env).livekitAPISecret ≠ "" ∧
      (∀ roomName identity name : String,
        (credential (loadEnv env) roomName identity name).apiKey ≠ "" ∧
        (credential (loadEnv env) roomName identity name).secret ≠ "") := by
  have hurl : (loadEnv env).livekitURL ≠ "" :=
    getEnv_ne_empty env "LIVEKIT_URL" "ws://localhost:7880" (by decide)
  have hkey : (loadEnv env).livekitAPIKey ≠ "" :=
    getEnv_ne_empty env "LIVEKIT_API_KEY" "devkey" (by decide)
  have hsecret : (loadEnv env).livekitAPISecret ≠ "" :=
    getEnv_ne_empty env "LIVEKIT_API_SECRET" "APIsecretkey123" (by decide)
  refine ⟨fun key d h => getEnv_ne_empty env key d h, hurl, hkey, hsecret, ?_⟩
  intro roomName identity name
  by_cases h : name = ""
  · subst h
    rw [credential_of_empty_name]
    exact ⟨hkey, hsecret⟩
  · rw [credential_of_name (loadEnv env) roomName identity name h]
    exact ⟨hkey, hsecret⟩

/-- C10 at an environment that sets the key and the secret to the empty
string: the defaults are loaded. -/
theorem loadEnv_settings_nonempty_witness :
    loadEnv [("LIVEKIT_API_KEY", ""), ("LIVEKIT_API_SECRET", "")] =
        { livekitURL := "ws://localhost:7880"
          livekitAPIKey := "devkey"
          livekitAPISecret := "APIsecretkey123" } ∧
      (loadEnv [("LIVEKIT_API_KEY", ""), ("LIVEKIT_API_SECRET", "")]).livekitAPIKey ≠ "" ∧
      (loadEnv [("LIVEKIT_API_KEY", ""), ("LIVEKIT_API_SECRET", "")]).livekitAPISecret ≠ "" :=
  ⟨by decide,
    (loadEnv_settings_nonempty [("LIVEKIT_API_KEY", ""), ("LIVEKIT_API_SECRET", "")]).2.2.1,
    (loadEnv_settings_nonempty [("LIVEKIT_API_KEY", ""), ("LIVEKIT_API_SECRET", "")]).2.2.2.1⟩


end TokenService
